import Mathlib

/-!
Verification of the computational core of the NeuralNetworkViz component
(`src/components/NeuralNetworkViz/NeuralNetworkViz.js`).

The component holds a small feed-forward network state (2 inputs, 6 weights,
3 biases), recomputes the three activations with a sigmoid on every change,
and renders nodes and edges on a canvas with value-dependent colors.

Shallow embedding conventions:
- JavaScript numbers are modelled as real numbers (`ℝ`).  `Math.exp` is
  `Real.exp`, `Math.round` is Mathlib's `round` (both round half up, i.e.
  `⌊x + 1/2⌋`), `Math.min`/`Math.abs` are `min`/`|·|`.
- The React state objects `inputs`, `weights`, `biases` become records of
  reals; the `setX(prev => \x7b...prev, [key]: v\x7d)` updaters become field
  updates on those records.
- CSS color strings `rgba(r, g, b, a)` / `rgb(r, g, b)` are modelled as
  records of their channel values.
- The canvas drawing routine is modelled by its guard structure (canvas
  element present, 2D context obtainable) together with the state-dependent
  data it paints: the six edge colors and the five node fill colors.
-/

namespace NeuralNetworkViz

/-- `const sigmoid = (x) => 1 / (1 + Math.exp(-x))` (line 61). -/
noncomputable def sigmoid (x : ℝ) : ℝ := 1 / (1 + Real.exp (-x))

/-- The `inputs` state object `{ A: 0, B: 0 }`: two input values. -/
structure Inputs where
  A : ℝ
  B : ℝ

/-- The `weights` state object, keys `A->H1`, `A->H2`, `B->H1`, `B->H2`,
`H1->O`, `H2->O`, in declaration order of the source (lines 147-154). -/
structure Weights where
  wAH1 : ℝ
  wAH2 : ℝ
  wBH1 : ℝ
  wBH2 : ℝ
  wH1O : ℝ
  wH2O : ℝ

/-- The `biases` state object `{ H1: 0, H2: 0, O: 0 }`. -/
structure Biases where
  bH1 : ℝ
  bH2 : ℝ
  bO : ℝ

/-- The whole numeric state of the component: inputs, weights, biases. -/
structure NetworkState where
  inputs : Inputs
  weights : Weights
  biases : Biases

/-- The record returned by `calculateActivations`:
`{ H1: h1_activation, H2: h2_activation, O: o_activation }`. -/
structure Activations where
  H1 : ℝ
  H2 : ℝ
  O : ℝ

/-- `calculateActivations` (lines 170-195): the feed-forward pass
`h1 = sigmoid(A*wAH1 + B*wBH1 + bH1)`, `h2 = sigmoid(A*wAH2 + B*wBH2 + bH2)`,
`o = sigmoid(h1*wH1O + h2*wH2O + bO)`. -/
noncomputable def calculateActivations (s : NetworkState) : Activations :=
  let h1_input := s.inputs.A * s.weights.wAH1 + s.inputs.B * s.weights.wBH1 + s.biases.bH1
  let h2_input := s.inputs.A * s.weights.wAH2 + s.inputs.B * s.weights.wBH2 + s.biases.bH2
  let h1_activation := sigmoid h1_input
  let h2_activation := sigmoid h2_input
  let o_input := h1_activation * s.weights.wH1O + h2_activation * s.weights.wH2O + s.biases.bO
  ⟨h1_activation, h2_activation, sigmoid o_input⟩

/-- The initial component state (lines 147-165): inputs 0, weights 0.5,
biases 0. -/
noncomputable def initialState : NetworkState :=
  ⟨⟨0, 0⟩, ⟨0.5, 0.5, 0.5, 0.5, 0.5, 0.5⟩, ⟨0, 0, 0⟩⟩

/-- `resetAll` (lines 349-360): unconditionally sets inputs to 0, all six
weights to 0.5 and all three biases to 0, ignoring the previous state. -/
noncomputable def resetAll (_prev : NetworkState) : NetworkState :=
  ⟨⟨0, 0⟩, ⟨0.5, 0.5, 0.5, 0.5, 0.5, 0.5⟩, ⟨0, 0, 0⟩⟩

/-- An `rgba(red, green, blue, alpha)` color string, as its channel values. -/
structure Rgba where
  red : ℝ
  green : ℝ
  blue : ℝ
  alpha : ℝ

/-- An `rgb(red, green, blue)` color string with integer channels. -/
structure Rgb where
  red : ℤ
  green : ℤ
  blue : ℤ

/-- `getWeightColor` (lines 64-74): `intensity = Math.min(Math.abs(weight), 1)`;
positive weights map to `rgba(0, 150 + 105*intensity, 0, intensity)`, negative
weights to `rgba(150 + 105*intensity, 0, 0, intensity)`, and weight 0 to
`rgba(100, 100, 100, 0.5)`. -/
noncomputable def getWeightColor (weight : ℝ) : Rgba :=
  let intensity := min |weight| 1
  if weight > 0 then ⟨0, 150 + 105 * intensity, 0, intensity⟩
  else if weight < 0 then ⟨150 + 105 * intensity, 0, 0, intensity⟩
  else ⟨100, 100, 100, 0.5⟩

/-- `getActivationColor` (lines 76-84): per-channel rounded linear
interpolation from `startColor = (255, 249, 196)` (pale yellow) to
`endColor = (255, 152, 0)` (deep orange), evaluated at `activation`. -/
noncomputable def getActivationColor (activation : ℝ) : Rgb :=
  ⟨round ((255 : ℝ) + (255 - 255) * activation),
   round ((249 : ℝ) + (152 - 249) * activation),
   round ((196 : ℝ) + (0 - 196) * activation)⟩

/-- The five node keys of the fixed topology drawn by `drawNetwork`. -/
inductive NodeKey
  | A
  | B
  | H1
  | H2
  | O
deriving DecidableEq

/-- Line 294: the value whose color fills a node is the raw input for the
two input nodes and the computed activation for `H1`, `H2`, `O`. -/
noncomputable def nodeDisplayValue (s : NetworkState) (k : NodeKey) : ℝ :=
  match k with
  | NodeKey.A => s.inputs.A
  | NodeKey.B => s.inputs.B
  | NodeKey.H1 => (calculateActivations s).H1
  | NodeKey.H2 => (calculateActivations s).H2
  | NodeKey.O => (calculateActivations s).O

/-- Lines 291-296: `ctx.fillStyle = getActivationColor(activation)` where
`activation` is `nodeDisplayValue`. -/
noncomputable def nodeFillColor (s : NetworkState) (k : NodeKey) : Rgb :=
  getActivationColor (nodeDisplayValue s k)

/-- The state-dependent content painted by `drawNetwork`: the six edge
colors (in the order of the `connections` array, lines 264-271) and the
five node fill colors (in `nodes` iteration order, lines 239-245). -/
structure RenderScene where
  edgeColors : List Rgba
  nodeColors : List Rgb

/-- The scene drawn for a given state. -/
noncomputable def renderScene (s : NetworkState) : RenderScene :=
  ⟨[getWeightColor s.weights.wAH1, getWeightColor s.weights.wAH2,
    getWeightColor s.weights.wBH1, getWeightColor s.weights.wBH2,
    getWeightColor s.weights.wH1O, getWeightColor s.weights.wH2O],
   [nodeFillColor s NodeKey.A, nodeFillColor s NodeKey.B,
    nodeFillColor s NodeKey.H1, nodeFillColor s NodeKey.H2,
    nodeFillColor s NodeKey.O]⟩

/-- `drawNetwork` (lines 221-226 and body): `if (!canvas) return;` then
`const ctx = canvas.getContext('2d'); if (!ctx) return;`.  The function
never mutates the component state; it only paints.  We return the (unchanged)
state paired with `none` when rendering was skipped, or `some` scene. -/
noncomputable def drawNetwork {Canvas Ctx : Type} (canvasRef : Option Canvas)
    (getContext : Canvas → Option Ctx) (s : NetworkState) :
    NetworkState × Option RenderScene :=
  match canvasRef with
  | none => (s, none)
  | some canvas =>
    match getContext canvas with
    | none => (s, none)
    | some _ => (s, some (renderScene s))

/-- Slider keys for the two inputs. -/
inductive InputKey
  | A
  | B
deriving DecidableEq

/-- Slider keys for the six weights. -/
inductive WeightKey
  | AH1
  | AH2
  | BH1
  | BH2
  | H1O
  | H2O
deriving DecidableEq

/-- Slider keys for the three biases. -/
inductive BiasKey
  | H1
  | H2
  | O
deriving DecidableEq

/-- `setInputs(prev => (...prev, [key]: newValue))` (line 202). -/
def setInputValue : InputKey → ℝ → Inputs → Inputs
  | InputKey.A, v, i => ⟨v, i.B⟩
  | InputKey.B, v, i => ⟨i.A, v⟩

/-- `setWeights(prev => (...prev, [key]: newValue))` (line 209). -/
def setWeightValue : WeightKey → ℝ → Weights → Weights
  | WeightKey.AH1, v, w => ⟨v, w.wAH2, w.wBH1, w.wBH2, w.wH1O, w.wH2O⟩
  | WeightKey.AH2, v, w => ⟨w.wAH1, v, w.wBH1, w.wBH2, w.wH1O, w.wH2O⟩
  | WeightKey.BH1, v, w => ⟨w.wAH1, w.wAH2, v, w.wBH2, w.wH1O, w.wH2O⟩
  | WeightKey.BH2, v, w => ⟨w.wAH1, w.wAH2, w.wBH1, v, w.wH1O, w.wH2O⟩
  | WeightKey.H1O, v, w => ⟨w.wAH1, w.wAH2, w.wBH1, w.wBH2, v, w.wH2O⟩
  | WeightKey.H2O, v, w => ⟨w.wAH1, w.wAH2, w.wBH1, w.wBH2, w.wH1O, v⟩

/-- `setBiases(prev => (...prev, [key]: newValue))` (line 216). -/
def setBiasValue : BiasKey → ℝ → Biases → Biases
  | BiasKey.H1, v, b => ⟨v, b.bH2, b.bO⟩
  | BiasKey.H2, v, b => ⟨b.bH1, v, b.bO⟩
  | BiasKey.O, v, b => ⟨b.bH1, b.bH2, v⟩

/-- A single slider-driven state change: one key among the inputs, weights
and biases receives a new value (the debounced handlers, lines 200-219). -/
inductive StateChange
  | input (k : InputKey) (v : ℝ)
  | weight (k : WeightKey) (v : ℝ)
  | bias (k : BiasKey) (v : ℝ)

/-- Apply one state change to the component state. -/
def applyChange : StateChange → NetworkState → NetworkState
  | StateChange.input k v, s => ⟨setInputValue k v s.inputs, s.weights, s.biases⟩
  | StateChange.weight k v, s => ⟨s.inputs, setWeightValue k v s.weights, s.biases⟩
  | StateChange.bias k v, s => ⟨s.inputs, s.weights, setBiasValue k v s.biases⟩

/-- The key a state change writes to (which of the 11 sliders it is). -/
def changeKey : StateChange → InputKey ⊕ WeightKey ⊕ BiasKey
  | StateChange.input k _ => Sum.inl k
  | StateChange.weight k _ => Sum.inr (Sum.inl k)
  | StateChange.bias k _ => Sum.inr (Sum.inr k)

/-! ### Shared lemmas about `sigmoid` -/

/-- The denominator `1 + exp(-x)` is positive. -/
lemma sigmoid_denom_pos (x : ℝ) : 0 < 1 + Real.exp (-x) := by
  linarith [Real.exp_pos (-x)]

/-- Sigmoid is positive everywhere. -/
lemma sigmoid_pos (x : ℝ) : 0 < sigmoid x :=
  div_pos one_pos (sigmoid_denom_pos x)

/-- Sigmoid is below 1 everywhere. -/
lemma sigmoid_lt_one (x : ℝ) : sigmoid x < 1 := by
  unfold sigmoid
  rw [div_lt_one (sigmoid_denom_pos x)]
  linarith [Real.exp_pos (-x)]

/-- Sigmoid at 0 is one half. -/
lemma sigmoid_zero_eq : sigmoid 0 = 0.5 := by
  unfold sigmoid
  rw [neg_zero, Real.exp_zero]
  norm_num

/-- Sigmoid is strictly increasing. -/
lemma sigmoid_lt_sigmoid {x y : ℝ} (hxy : x < y) : sigmoid x < sigmoid y := by
  unfold sigmoid
  have hx := sigmoid_denom_pos x
  have hy := sigmoid_denom_pos y
  rw [div_lt_div_iff₀ hx hy]
  have h : Real.exp (-y) < Real.exp (-x) := Real.exp_lt_exp.mpr (by linarith)
  linarith

/-- `exp(1/2)` squared is `exp 1`. -/
lemma exp_half_sq : Real.exp (1 / 2) * Real.exp (1 / 2) = Real.exp 1 := by
  rw [← Real.exp_add]
  norm_num

/-- Rational upper bound on `exp(1/2)`. -/
lemma exp_half_lt : Real.exp (1 / 2) < 1.6488 := by
  nlinarith [Real.exp_one_lt_d9, Real.exp_pos (1 / 2 : ℝ), exp_half_sq]

/-- Rational lower bound on `exp(1/2)`. -/
lemma exp_half_gt : 1.6487 < Real.exp (1 / 2) := by
  nlinarith [Real.exp_one_gt_d9, Real.exp_pos (1 / 2 : ℝ), exp_half_sq]

/-- `sigmoid 0.5` rewritten over `exp (1/2)`. -/
lemma sigmoid_half_eq : sigmoid 0.5 = Real.exp (1 / 2) / (Real.exp (1 / 2) + 1) := by
  unfold sigmoid
  rw [show -(0.5 : ℝ) = -(1 / 2) by norm_num, Real.exp_neg]
  have hE := Real.exp_pos (1 / 2 : ℝ)
  rw [inv_eq_one_div]
  rw [div_eq_div_iff (by positivity) (by positivity)]
  field_simp

/-- `sigmoid 0.5` is within `0.001` of `0.6225`. -/
lemma sigmoid_half_near : |sigmoid 0.5 - 0.6225| < 0.001 := by
  have h1 := exp_half_lt
  have h2 := exp_half_gt
  have hE := Real.exp_pos (1 / 2 : ℝ)
  have hd : (0 : ℝ) < Real.exp (1 / 2) + 1 := by linarith
  have hlow : (0.6215 : ℝ) < Real.exp (1 / 2) / (Real.exp (1 / 2) + 1) := by
    rw [lt_div_iff₀ hd]
    linarith
  have hhigh : Real.exp (1 / 2) / (Real.exp (1 / 2) + 1) < (0.6235 : ℝ) := by
    rw [div_lt_iff₀ hd]
    linarith
  rw [sigmoid_half_eq, abs_sub_lt_iff]
  constructor <;> linarith

/-- Updating the two input fields at distinct keys commutes. -/
lemma setInputValue_comm (k1 k2 : InputKey) (h : k1 ≠ k2) (v1 v2 : ℝ) (i : Inputs) :
    setInputValue k2 v2 (setInputValue k1 v1 i) = setInputValue k1 v1 (setInputValue k2 v2 i) := by
  cases k1 <;> cases k2 <;> first | exact absurd rfl h | rfl

/-- Updating the six weight fields at distinct keys commutes. -/
lemma setWeightValue_comm (k1 k2 : WeightKey) (h : k1 ≠ k2) (v1 v2 : ℝ) (w : Weights) :
    setWeightValue k2 v2 (setWeightValue k1 v1 w) = setWeightValue k1 v1 (setWeightValue k2 v2 w) := by
  cases k1 <;> cases k2 <;> first | exact absurd rfl h | rfl

/-- Updating the three bias fields at distinct keys commutes. -/
lemma setBiasValue_comm (k1 k2 : BiasKey) (h : k1 ≠ k2) (v1 v2 : ℝ) (b : Biases) :
    setBiasValue k2 v2 (setBiasValue k1 v1 b) = setBiasValue k1 v1 (setBiasValue k2 v2 b) := by
  cases k1 <;> cases k2 <;> first | exact absurd rfl h | rfl

/-! ### Claims -/

/-- Claim C1: for all inputs, weights and biases, `calculateActivations`
returns exactly `h1 = sigmoid(A*wAH1 + B*wBH1 + bH1)`,
`h2 = sigmoid(A*wAH2 + B*wBH2 + bH2)` and
`o = sigmoid(h1*wH1O + h2*wH2O + bO)`, with
`sigmoid(x) = 1/(1 + e^(-x))`. -/
theorem calculateActivations_formula
    (A B wAH1 wBH1 wAH2 wBH2 wH1O wH2O bH1 bH2 bO : ℝ) :
    (∀ x : ℝ, sigmoid x = 1 / (1 + Real.exp (-x))) ∧
    calculateActivations ⟨⟨A, B⟩, ⟨wAH1, wAH2, wBH1, wBH2, wH1O, wH2O⟩, ⟨bH1, bH2, bO⟩⟩ =
      ⟨sigmoid (A * wAH1 + B * wBH1 + bH1),
       sigmoid (A * wAH2 + B * wBH2 + bH2),
       sigmoid (sigmoid (A * wAH1 + B * wBH1 + bH1) * wH1O +
                sigmoid (A * wAH2 + B * wBH2 + bH2) * wH2O + bO)⟩ :=
  ⟨fun _ => rfl, rfl⟩

/-- Claim C2: from any prior state, `resetAll` produces exactly the
documented defaults: inputs 0, all six weights 0.5, all three biases 0. -/
theorem resetAll_restores_defaults (s : NetworkState) :
    resetAll s = ⟨⟨0, 0⟩, ⟨0.5, 0.5, 0.5, 0.5, 0.5, 0.5⟩, ⟨0, 0, 0⟩⟩ :=
  rfl

/-- Claim C3: `sigmoid 0 = 0.5`, sigmoid is strictly increasing, and its
values lie strictly between 0 and 1 for every real argument. -/
theorem sigmoid_properties :
    sigmoid 0 = 0.5 ∧
    (∀ x y : ℝ, x < y → sigmoid x < sigmoid y) ∧
    (∀ x : ℝ, 0 < sigmoid x ∧ sigmoid x < 1) :=
  ⟨sigmoid_zero_eq, fun _ _ h => sigmoid_lt_sigmoid h,
   fun x => ⟨sigmoid_pos x, sigmoid_lt_one x⟩⟩

/-- Witness for C3: the monotonicity clause applied at `0 < 1`. -/
theorem sigmoid_properties_witness : (0 : ℝ) < 1 ∧ sigmoid 0 < sigmoid 1 :=
  ⟨by norm_num, sigmoid_properties.2.1 0 1 (by norm_num)⟩

/-- Claim C10: at weight exactly 0 the edge color is the fixed half-opacity
gray `rgba(100, 100, 100, 0.5)`; in particular its alpha is not 0, so the
edge is still visibly drawn. -/
theorem getWeightColor_at_zero :
    getWeightColor 0 = ⟨100, 100, 100, 0.5⟩ ∧ (getWeightColor 0).alpha ≠ 0 := by
  constructor
  · unfold getWeightColor
    norm_num
  · unfold getWeightColor
    norm_num

/-- Claim C4: in the default state (inputs 0, weights 0.5, biases 0) the
activations are `h1 = h2 = sigmoid 0 = 0.5` and
`o = sigmoid (0.5*0.5 + 0.5*0.5) = sigmoid 0.5 ≈ 0.6225` (within 0.001). -/
theorem default_state_activations :
    (calculateActivations initialState).H1 = 0.5 ∧
    (calculateActivations initialState).H2 = 0.5 ∧
    (calculateActivations initialState).O = sigmoid (0.5 * 0.5 + 0.5 * 0.5) ∧
    sigmoid (0.5 * 0.5 + 0.5 * 0.5) = sigmoid 0.5 ∧
    |(calculateActivations initialState).O - 0.6225| < 0.001 := by
  have harg : (0 : ℝ) * 0.5 + 0 * 0.5 + 0 = 0 := by norm_num
  have hH1 : (calculateActivations initialState).H1 = 0.5 := by
    show sigmoid (0 * 0.5 + 0 * 0.5 + 0) = 0.5
    rw [harg, sigmoid_zero_eq]
  have hH2 : (calculateActivations initialState).H2 = 0.5 := by
    show sigmoid (0 * 0.5 + 0 * 0.5 + 0) = 0.5
    rw [harg, sigmoid_zero_eq]
  have hhalf : (0.5 : ℝ) * 0.5 + 0.5 * 0.5 = 0.5 := by norm_num
  have hO : (calculateActivations initialState).O = sigmoid (0.5 * 0.5 + 0.5 * 0.5) := by
    show sigmoid (sigmoid (0 * 0.5 + 0 * 0.5 + 0) * 0.5 +
      sigmoid (0 * 0.5 + 0 * 0.5 + 0) * 0.5 + 0) = _
    rw [harg, sigmoid_zero_eq]
    norm_num
  refine ⟨hH1, hH2, hO, by rw [hhalf], ?_⟩
  rw [hO, hhalf]
  exact sigmoid_half_near

/-- Claim C5: for every state (in particular at the slider range boundaries)
the three recomputed activations are in `[0, 1]`; the range invariant holds
after every state change because activations are recomputed from the state. -/
theorem activations_in_unit_range (s : NetworkState) :
    (0 ≤ (calculateActivations s).H1 ∧ (calculateActivations s).H1 ≤ 1) ∧
    (0 ≤ (calculateActivations s).H2 ∧ (calculateActivations s).H2 ≤ 1) ∧
    (0 ≤ (calculateActivations s).O ∧ (calculateActivations s).O ≤ 1) :=
  ⟨⟨(sigmoid_pos _).le, (sigmoid_lt_one _).le⟩,
   ⟨(sigmoid_pos _).le, (sigmoid_lt_one _).le⟩,
   ⟨(sigmoid_pos _).le, (sigmoid_lt_one _).le⟩⟩

/-- Claim C6: a positive weight yields a purely green edge color and a
negative weight a purely red one, with opacity `min |w| 1` (the magnitude
clamped to 1) and a strictly positive colored channel in both cases. -/
theorem getWeightColor_sign_encoding (w : ℝ) :
    (0 < w → getWeightColor w = ⟨0, 150 + 105 * min |w| 1, 0, min |w| 1⟩ ∧
      0 < (150 : ℝ) + 105 * min |w| 1) ∧
    (w < 0 → getWeightColor w = ⟨150 + 105 * min |w| 1, 0, 0, min |w| 1⟩ ∧
      0 < (150 : ℝ) + 105 * min |w| 1) := by
  have hmin : (0 : ℝ) ≤ min |w| 1 := le_min (abs_nonneg w) zero_le_one
  constructor
  · intro hw
    refine ⟨?_, by linarith⟩
    unfold getWeightColor
    rw [if_pos hw]
  · intro hw
    refine ⟨?_, by linarith⟩
    unfold getWeightColor
    rw [if_neg (by linarith : ¬ w > 0), if_pos hw]

/-- Witness for C6 at the weights `0.75` and `-0.75`. -/
theorem getWeightColor_sign_encoding_witness :
    ((0 : ℝ) < 0.75 ∧
      getWeightColor 0.75 = ⟨0, 150 + 105 * min |(0.75 : ℝ)| 1, 0, min |(0.75 : ℝ)| 1⟩) ∧
    ((-0.75 : ℝ) < 0 ∧
      getWeightColor (-0.75) =
        ⟨150 + 105 * min |(-0.75 : ℝ)| 1, 0, 0, min |(-0.75 : ℝ)| 1⟩) := by
  have h1 : (0 : ℝ) < 0.75 := by norm_num
  have h2 : (-0.75 : ℝ) < 0 := by norm_num
  exact ⟨⟨h1, ((getWeightColor_sign_encoding 0.75).1 h1).1⟩,
         ⟨h2, ((getWeightColor_sign_encoding (-0.75)).2 h2).1⟩⟩

/-- Claim C7: for an activation in `[0, 1]` the node fill color is the
per-channel rounded linear interpolation between pale yellow `(255,249,196)`
at 0 and deep orange `(255,152,0)` at 1, and the input nodes are colored by
their raw input value while the other nodes use the computed activation. -/
theorem nodeFillColor_interpolates (a : ℝ) (_ha0 : 0 ≤ a) (_ha1 : a ≤ 1) :
    getActivationColor a =
      ⟨round ((255 : ℝ) + ((255 : ℝ) - 255) * a),
       round ((249 : ℝ) + ((152 : ℝ) - 249) * a),
       round ((196 : ℝ) + ((0 : ℝ) - 196) * a)⟩ ∧
    getActivationColor 0 = ⟨255, 249, 196⟩ ∧
    getActivationColor 1 = ⟨255, 152, 0⟩ ∧
    ∀ s : NetworkState,
      nodeFillColor s NodeKey.A = getActivationColor s.inputs.A ∧
      nodeFillColor s NodeKey.B = getActivationColor s.inputs.B ∧
      nodeFillColor s NodeKey.H1 = getActivationColor (calculateActivations s).H1 ∧
      nodeFillColor s NodeKey.H2 = getActivationColor (calculateActivations s).H2 ∧
      nodeFillColor s NodeKey.O = getActivationColor (calculateActivations s).O := by
  refine ⟨rfl, ?_, ?_, fun s => ⟨rfl, rfl, rfl, rfl, rfl⟩⟩
  · unfold getActivationColor
    norm_num
  · unfold getActivationColor
    norm_num

/-- Witness for C7 at the activation `0.5`. -/
theorem nodeFillColor_interpolates_witness :
    (0 : ℝ) ≤ 0.5 ∧ (0.5 : ℝ) ≤ 1 ∧
    getActivationColor 0.5 =
      ⟨round ((255 : ℝ) + ((255 : ℝ) - 255) * 0.5),
       round ((249 : ℝ) + ((152 : ℝ) - 249) * 0.5),
       round ((196 : ℝ) + ((0 : ℝ) - 196) * 0.5)⟩ :=
  ⟨by norm_num, by norm_num,
   (nodeFillColor_interpolates 0.5 (by norm_num) (by norm_num)).1⟩

/-- Claim C8: when the canvas element is missing, or a 2D context cannot be
obtained from it, `drawNetwork` silently skips rendering: it draws nothing
and leaves the state unchanged. -/
theorem drawNetwork_missing_surface {Canvas Ctx : Type}
    (getContext : Canvas → Option Ctx) (s : NetworkState) :
    drawNetwork (none : Option Canvas) getContext s = (s, none) ∧
    ∀ c : Canvas, getContext c = none → drawNetwork (some c) getContext s = (s, none) := by
  refine ⟨rfl, fun c hc => ?_⟩
  simp only [drawNetwork]
  rw [hc]

/-- Witness for C8 with a one-point canvas type whose context lookup fails. -/
theorem drawNetwork_missing_surface_witness :
    drawNetwork (none : Option Unit) (fun _ : Unit => (none : Option Unit)) initialState =
      (initialState, none) ∧
    drawNetwork (some ()) (fun _ : Unit => (none : Option Unit)) initialState =
      (initialState, none) :=
  ⟨(drawNetwork_missing_surface (fun _ : Unit => (none : Option Unit)) initialState).1,
   (drawNetwork_missing_surface (fun _ : Unit => (none : Option Unit)) initialState).2 () rfl⟩

/-- Claim C9: two state changes that write distinct keys (among the inputs,
weights and biases) commute: either order yields the same final state, and
hence the same recomputed activations. -/
theorem independent_changes_commute (s : NetworkState) (c1 c2 : StateChange)
    (h : changeKey c1 ≠ changeKey c2) :
    applyChange c2 (applyChange c1 s) = applyChange c1 (applyChange c2 s) ∧
    calculateActivations (applyChange c2 (applyChange c1 s)) =
      calculateActivations (applyChange c1 (applyChange c2 s)) := by
  have hs : applyChange c2 (applyChange c1 s) = applyChange c1 (applyChange c2 s) := by
    cases c1 with
    | input k1 v1 =>
      cases c2 with
      | input k2 v2 =>
        have hk : k1 ≠ k2 := by
          intro he
          subst he
          exact h rfl
        show (⟨setInputValue k2 v2 (setInputValue k1 v1 s.inputs),
          s.weights, s.biases⟩ : NetworkState) = _
        rw [setInputValue_comm k1 k2 hk]
        rfl
      | weight k2 v2 => rfl
      | bias k2 v2 => rfl
    | weight k1 v1 =>
      cases c2 with
      | input k2 v2 => rfl
      | weight k2 v2 =>
        have hk : k1 ≠ k2 := by
          intro he
          subst he
          exact h rfl
        show (⟨s.inputs, setWeightValue k2 v2 (setWeightValue k1 v1 s.weights),
          s.biases⟩ : NetworkState) = _
        rw [setWeightValue_comm k1 k2 hk]
        rfl
      | bias k2 v2 => rfl
    | bias k1 v1 =>
      cases c2 with
      | input k2 v2 => rfl
      | weight k2 v2 => rfl
      | bias k2 v2 =>
        have hk : k1 ≠ k2 := by
          intro he
          subst he
          exact h rfl
        show (⟨s.inputs, s.weights,
          setBiasValue k2 v2 (setBiasValue k1 v1 s.biases)⟩ : NetworkState) = _
        rw [setBiasValue_comm k1 k2 hk]
        rfl
  exact ⟨hs, by rw [hs]⟩

/-- Witness for C9: setting input A and weight A-to-H1 commutes on the
default state. -/
theorem independent_changes_commute_witness :
    changeKey (StateChange.input InputKey.A 1) ≠
      changeKey (StateChange.weight WeightKey.AH1 0.25) ∧
    applyChange (StateChange.weight WeightKey.AH1 0.25)
        (applyChange (StateChange.input InputKey.A 1) initialState) =
      applyChange (StateChange.input InputKey.A 1)
        (applyChange (StateChange.weight WeightKey.AH1 0.25) initialState) := by
  have hne : changeKey (StateChange.input InputKey.A 1) ≠
      changeKey (StateChange.weight WeightKey.AH1 0.25) := by
    intro h
    exact Sum.noConfusion h
  exact ⟨hne,
    (independent_changes_commute initialState (StateChange.input InputKey.A 1)
      (StateChange.weight WeightKey.AH1 0.25) hne).1⟩

end NeuralNetworkViz
